import Mathlib

/-!
Verification of the joulescope `View` actor (`joulescope/view.py`).

The live stream buffer, the `span` module, numpy and the calibration blob are
external collaborators of `view.py`; they enter the model as abstract
parameters (functions and integer inputs).  Floating-point quantities that
feed the integer pipeline (`int(lag_time * sampling_frequency)`, the float
members `_x_range`, `_x` and the span limits) are carried as abstract integer
data: no claim computes with their numeric values, they are only produced by
abstract collaborator functions, stored, compared and passed through.
Python `//` on integers is floor division, modelled by `Int.fdiv`.
-/

namespace JView

/-- Decidable equality for `Except`, used to evaluate response values in
witnesses and counterexamples. -/
instance instDecEqExcept [DecidableEq ε] [DecidableEq α] :
    DecidableEq (Except ε α) := fun a b =>
  match a, b with
  | Except.ok x, Except.ok y => decidable_of_iff (x = y) (by simp)
  | Except.error x, Except.error y => decidable_of_iff (x = y) (by simp)
  | Except.ok _, Except.error _ => isFalse (by simp)
  | Except.error _, Except.ok _ => isFalse (by simp)

/-- One row of the display window (`self._data[i]`); `none` models the NaN
sentinel written by `np.nan` fills, `some v` an abstract row payload written
by the buffer's `data_get`. -/
abbrev Row := Option Int

/-- The mutable state of a `View` instance: the fields of `View.__init__`
that the claims touch.  `stream_buffer` is a reference identity (`none` =
Python `None`), `hasUpdateFn` is `callable(self.on_update_fn)`, `limits`
stands for `self.limits` (the span limits, `None` before a buffer is
assigned). -/
structure VState where
  state : String
  stream_buffer : Option Nat
  data : Option (List Row)
  x : Option (List Int)
  x_range : List Int
  limits : Option (List Int)
  samples_per : Int
  data_idx : Int
  changed : Bool
  stream_notify_available : Bool
  refresh_requested : Bool
  hasUpdateFn : Bool
deriving DecidableEq, Repr

/-- `View.__len__`: 0 when `self._data is None`, else the row count of the
window array. -/
def viewLen (s : VState) : Int :=
  match s.data with
  | none => 0
  | some d => d.length

/-- `View._clear`: mark changed and refresh-pending, reset the data index and
NaN-fill the window in place (shape preserved). -/
def clear (s : VState) : VState :=
  { s with changed := true, refresh_requested := true, data_idx := 0,
           data := s.data.map (fun d => List.replicate d.length (none : Row)) }

/-- `View._start`: clear the window, then enter the `streaming` state. -/
def startCmd (s : VState) : VState :=
  { clear s with state := "streaming" }

/-- `View._stop`: return to the `idle` state. -/
def stopCmd (s : VState) : VState :=
  { s with state := "idle" }

/-- `View._stream_notify`: record the buffer reference and set the
availability flag; nothing else is touched. -/
def streamNotify (buf : Option Nat) (s : VState) : VState :=
  { s with stream_buffer := buf, stream_notify_available := true }

/-- The update payload built by `data_array_to_update`: the per-signal
statistics of the dict are column slices of `rows`, so `rows` together with
the x-axis data and the `state.source_type` tag determine the whole dict. -/
structure Snapshot where
  limits : Option (List Int)
  xFirst : Int
  xLast : Int
  rows : List Row
  source_type : String
deriving DecidableEq, Repr

/-- The `stream_notify` arm of `View._cmd_process`: it calls only
`_stream_notify`, which performs two plain assignments; the empty list
records that no update-callback invocation can happen while the command is
processed. -/
def cmdStreamNotify (buf : Option Nat) (s : VState) :
    VState × List (Option Snapshot) :=
  (streamNotify buf s, [])

/-- Public `View.start(self, stream_buffer)`: posts the blocking `start`
command, whose worker-side effect is `View._start`; the `stream_buffer`
argument never appears in the body. -/
def start (_stream_buffer : Option Nat) (s : VState) : VState :=
  startCmd s

/-- Environment of one update pass over the live buffer: the buffer's
`sample_id_range[1]`, the integer `int(lag_time * self.sampling_frequency)`
computed inside `View._view` (the float product is external input), and the
buffer's `data_get(start, stop, increment, out)`, which overwrites a
caller-chosen region of the window and returns its new contents (numpy
writes in place, so the real `data_get` preserves the region's length). -/
structure BufEnv where
  sample_id_end : Int
  lag_int : Int
  dataGet : Int → Int → Int → List Row → List Row

/-- `View._view`: returns
`(data_idx_view_end, sample_id_end, delta)` for the current state. -/
def view (env : BufEnv) (s : VState) : Int × Int × Int :=
  let lag_samples := Int.fdiv env.lag_int s.samples_per
  let data_idx_stream_end := Int.fdiv env.sample_id_end s.samples_per
  let data_idx_view_end := data_idx_stream_end - lag_samples
  let sample_id_end := data_idx_view_end * s.samples_per
  (data_idx_view_end, sample_id_end, data_idx_view_end - s.data_idx)

/-- `np.roll(l, shift, axis=0)` on the row list: the element at index `i`
moves to index `(i + shift) mod n`, i.e. a left rotation by
`(-shift) mod n`. -/
def npRoll (l : List α) (shift : Int) : List α :=
  if l.length = 0 then l
  else l.rotate (((-shift) % (l.length : Int)).toNat)

/-- Python slice `l[i:]` with a possibly negative index. -/
def pySliceFrom (l : List α) (i : Int) : List α :=
  let n : Int := l.length
  let start := if i < 0 then max 0 (n + i) else min n i
  l.drop start.toNat

/-- `View._update_from_buffer`.  The numpy in-place slice assignment
`data_get(..., self._data[-delta:, :, :])` is modelled by keeping the
untouched prefix of the rolled window and replacing the suffix region with
the `data_get` output. -/
def updateFromBuffer (env : BufEnv) (s : VState) : VState :=
  match s.stream_buffer with
  | none => s
  | some _ =>
    let length := viewLen s
    let data_idx_view_end := (view env s).1
    let sample_id_end := (view env s).2.1
    let delta := (view env s).2.2
    match s.data with
    | none => s
    | some d =>
      if s.changed = false ∧ delta = 0 then s
      else
        let d2 :=
          if s.changed = true ∨ delta ≥ length then
            let d1 : List Row := List.replicate d.length none
            if data_idx_view_end > 0 then
              env.dataGet ((data_idx_view_end - length) * s.samples_per)
                sample_id_end s.samples_per d1
            else d1
          else if data_idx_view_end > 0 then
            let rolled := npRoll d (-delta)
            let region := pySliceFrom rolled (-delta)
            rolled.take (rolled.length - region.length) ++
              env.dataGet (s.data_idx * s.samples_per) sample_id_end
                s.samples_per region
          else
            List.replicate d.length none
        { s with data := some d2, data_idx := data_idx_view_end,
                 changed := false }

/-- `data_array_to_update(x_limits, x, data_array)`: builds the update dict.
`x[0]` and `x[-1]` on an empty axis raise `IndexError`, modelled as
`Except.error`; only the fields the claims consult are kept (the per-signal
statistics dicts are slices of `rows`). -/
def dataArrayToUpdate (limits : Option (List Int)) (x : List Int)
    (rows : List Row) : Except String Snapshot :=
  match x with
  | [] => Except.error "IndexError: x is empty"
  | x0 :: _ =>
    Except.ok { limits := limits, xFirst := x0, xLast := x.getLastD x0,
                rows := rows, source_type := "buffer" }

/-- `View._update`: when an update callback is registered, recompute from the
buffer, build the payload (`none` when `self._data is None`), retag
`source_type` as `realtime` when the state is not `idle`, reset the
notify/refresh flags, and invoke the callback once (exceptions raised inside
the callback are caught, so the invocation is recorded unconditionally).
An exception while building the payload propagates out (`Except.error`),
in which case the flags are not reset and no invocation happens.  The second
component lists the update-callback invocations of the pass. -/
def update (env : BufEnv) (s : VState) :
    Except String (VState × List (Option Snapshot)) :=
  if s.hasUpdateFn = false then Except.ok (s, [])
  else
    let s1 := updateFromBuffer env s
    match s1.data with
    | none =>
      Except.ok ({ s1 with stream_notify_available := false,
                           refresh_requested := false }, [none])
    | some rows =>
      match s1.x with
      | none => Except.error "TypeError: x is None"
      | some xs =>
        match dataArrayToUpdate s1.limits xs rows with
        | Except.error e => Except.error e
        | Except.ok snap =>
          let snap := if s1.state = "idle" then snap
                      else { snap with source_type := "realtime" }
          Except.ok ({ s1 with stream_notify_available := false,
                               refresh_requested := false }, [some snap])

/-- The worker-loop state of `View.run` that survives between queue polls. -/
structure RunState where
  vs : VState
  cmd_count : Nat
deriving DecidableEq, Repr

/-- The `queue.Empty` branch of `View.run`: one idle tick.  The unsolicited
update pass runs only when at least one command was processed since the
previous idle tick and a refresh is pending and the window changed or new
stream data was notified; `cmd_count` is reset afterwards in every case. -/
def runIdle (env : BufEnv) (r : RunState) :
    Except String (RunState × List (Option Snapshot)) :=
  if r.cmd_count ≠ 0 ∧ r.vs.refresh_requested = true ∧
      (r.vs.changed = true ∨ r.vs.stream_notify_available = true) then
    match update env r.vs with
    | Except.error e => Except.error e
    | Except.ok p => Except.ok (⟨p.1, 0⟩, p.2)
  else
    Except.ok (⟨r.vs, 0⟩, [])

/-- A Python value as seen by the response queue of `_post_block`: `None`, a
payload, or an `Exception` instance. -/
inductive PyVal (α : Type) where
  | pynone : PyVal α
  | val : α → PyVal α
  | exn : String → PyVal α
deriving DecidableEq, Repr

/-- `View._cmd_process`: `rv` starts as `None`; the bare `except` catches
every exception raised while running the command, logs it and leaves
`rv = None`, so the function always returns normally and the worker loop
never sees the exception. -/
def cmdProcessResult (handler : Except String (PyVal α)) : PyVal α :=
  match handler with
  | Except.ok rv => rv
  | Except.error _ => PyVal.pynone

/-- Outcome of `self._response_queue.get(timeout=timeout)` inside
`View._post_block`: a `queue.Empty` timeout, some other exception raised by
the get, or a value taken off the queue. -/
inductive RespEvent (α : Type) where
  | timeout : RespEvent α
  | raisedOther : String → RespEvent α
  | got : PyVal α → RespEvent α
deriving DecidableEq, Repr

/-- Result of one `View._post_block` call: whether the thread handle is still
held afterwards, whether a `close` command was posted, whether `join` was
called, and either the returned value or the raised `IOError`. -/
structure PBOut (α : Type) where
  threadAfter : Bool
  closePosted : Bool
  joined : Bool
  result : Except String (PyVal α)
deriving DecidableEq, Repr

/-- `View._post_block`: raises `IOError` when the thread is not running; on a
response timeout (`queue.Empty`) posts `close`, joins and releases the
thread, then raises `IOError` wrapping the `queue.Empty`; any other
exception from the get, and any `Exception` instance taken off the queue,
is re-raised wrapped in `IOError`; every other value is returned as is. -/
def postBlock (threadRunning : Bool) (ev : RespEvent α) : PBOut α :=
  if threadRunning = false then
    ⟨false, false, false, Except.error "IOError: View thread not running"⟩
  else
    match ev with
    | RespEvent.timeout =>
      ⟨false, true, true, Except.error "IOError: queue.Empty"⟩
    | RespEvent.raisedOther e =>
      ⟨true, false, false, Except.error ("IOError: " ++ e)⟩
    | RespEvent.got (PyVal.exn e) =>
      ⟨true, false, false, Except.error ("IOError: " ++ e)⟩
    | RespEvent.got v =>
      ⟨true, false, false, Except.ok v⟩

/-- Module constant `TIMEOUT = 10.0` seconds, carried as a rational. -/
def TIMEOUT : ℚ := 10

/-- Timeout selection at the top of `_post_block`:
`timeout = TIMEOUT if timeout is None else float(timeout)`. -/
def pbTimeout (t : Option ℚ) : ℚ :=
  match t with
  | none => TIMEOUT
  | some x => x

/-- External collaborators of `_samples_get` and `_statistics_get`: the
buffer's `time_to_sample_id` and Python `int(x)` (either may raise, e.g.
`int(None)` is a `TypeError`), and the buffer's keyword-argument calls
`data_get(start=, stop=)` and `raw_get(start=, stop=)`, which receive the
caller's original values. -/
structure SamplesEnv (V D R : Type) where
  timeToSampleId : Option V → Except String Int
  intOf : Option V → Except String Int
  dataGetKw : Option V → Option V → D
  rawGetKw : Option V → Option V → R

/-- `View._convert_time_to_samples`. -/
def convertTimeToSamples (env : SamplesEnv V D R) (x : Option V)
    (units : Option String) : Except String Int :=
  if units = none ∨ units = some "seconds" then env.timeToSampleId x
  else if units = some "samples" then env.intOf x
  else Except.error "ValueError: unsupported units"

/-- `View._convert_time_range_to_samples`; `start_idx` and
`data_idx_view_end` are the state-derived defaults computed at the top of the
function (`(data_idx_view_end - length) * samples_per` and
`data_idx_view_end`). -/
def convertTimeRangeToSamples (env : SamplesEnv V D R)
    (start_idx data_idx_view_end : Int) (start stop : Option V)
    (units : Option String) : Except String (Int × Int) :=
  match (if start.isNone = true ∧ units = some "seconds" then
           Except.ok start_idx
         else convertTimeToSamples env start units) with
  | Except.error e => Except.error e
  | Except.ok a =>
    match (if stop.isNone = true ∧ units = some "seconds" then
             Except.ok data_idx_view_end
           else convertTimeToSamples env stop units) with
    | Except.error e => Except.error e
    | Except.ok b => Except.ok (a, b)

/-- `View._samples_get`: converts the range (the converted indices `s1, s2`
are only logged), then calls `data_get` and `raw_get` with the caller's
original `start`/`stop`; every signal column of the returned dict is a slice
of the `data_get` result and the `raw` column is the `raw_get` result, so
the pair determines the full response. -/
def samplesGet (env : SamplesEnv V D R) (start_idx data_idx_view_end : Int)
    (start stop : Option V) (units : Option String) :
    Except String (D × R) :=
  match convertTimeRangeToSamples env start_idx data_idx_view_end
      start stop units with
  | Except.error e => Except.error e
  | Except.ok _ => Except.ok (env.dataGetKw start stop, env.rawGetKw start stop)

/-- `View._statistics_get`: converts the range, then queries
`stats_get(start=s1, stop=s2)` and shapes the result; `statsApi` stands for
`stats_to_api(d, t_start, t_stop)` as a function of the converted sample
indices. -/
def statisticsGet (env : SamplesEnv V D R) (statsApi : Int → Int → S)
    (start_idx data_idx_view_end : Int) (start stop : Option V)
    (units : Option String) : Except String S :=
  match convertTimeRangeToSamples env start_idx data_idx_view_end
      start stop units with
  | Except.error e => Except.error e
  | Except.ok p => Except.ok (statsApi p.1 p.2)

/-- The `resize` arm of `View._on_x_change`.  `conform` abstracts
`span.conform_discrete` applied to the current range and `anchor` abstracts
the whole streaming re-anchor block (the trailing-edge shift plus the second
`conform_discrete`); both return `(x_range, samples_per, x)`.  The mutation
of the external `span` object (`self._span.length = length`) is not part of
the view state. -/
def onXChangeResize (conform anchor : List Int → List Int × Int × List Int)
    (pixels : Option Nat) (s : VState) : VState :=
  let s :=
    match pixels with
    | some length =>
      if (length : Int) ≠ viewLen s then
        { s with data := some (List.replicate length (none : Row)),
                 changed := true }
      else s
    | none => s
  let c1 := conform s.x_range
  let c2 := if s.state = "streaming" then anchor c1.1 else c1
  let s := { s with samples_per := c2.2.1, x := some c2.2.2 }
  let s := { s with changed := s.changed || decide (s.x_range ≠ c2.1) }
  let s := clear s
  let s := { s with x_range := c2.1 }
  if s.state = "idle" then streamNotify s.stream_buffer s else s

/-- Concrete window contents used by witnesses and counterexamples. -/
def dW : List Row := [some 1, some 2, some 3, some 4]

/-- Concrete `data_get` used by witnesses and counterexamples: fills every
row of the target region with the payload 9. -/
def gW : Int → Int → Int → List Row → List Row :=
  fun _ _ _ l => l.map (fun _ => some 9)

/-- Concrete view state: idle, buffer attached, four-row window, invalidated
(`changed`), used as the starting point of the C1 counterexample. -/
def sW0 : VState :=
  { state := "idle", stream_buffer := some 0, data := some dW,
    x := some [0], x_range := [0, 1], limits := none, samples_per := 1,
    data_idx := 0, changed := true, stream_notify_available := false,
    refresh_requested := false, hasUpdateFn := false }

/-- Buffer environment for the first C1 pass: no samples yet, the view is
panned five rows behind the live edge. -/
def envW1 : BufEnv := { sample_id_end := 0, lag_int := 5, dataGet := gW }

/-- Buffer environment for the second C1 pass: three new samples arrived,
same pan. -/
def envW2 : BufEnv := { sample_id_end := 3, lag_int := 5, dataGet := gW }

/-- Buffer environment whose `data_get` keeps the region contents; used by
witnesses that only need a well-formed environment. -/
def envId : BufEnv :=
  { sample_id_end := 0, lag_int := 0, dataGet := fun _ _ _ l => l }

/-- Concrete view state with a registered update callback, pending refresh
and no window data; used by the C5 and C6 witnesses. -/
def vPend : VState :=
  { state := "idle", stream_buffer := none, data := none, x := none,
    x_range := [0, 1], limits := none, samples_per := 1, data_idx := 0,
    changed := true, stream_notify_available := true,
    refresh_requested := true, hasUpdateFn := true }

/-- Concrete streaming state with window data and a nonempty x axis; used by
the C6 witness. -/
def vStream : VState :=
  { state := "streaming", stream_buffer := none, data := some dW,
    x := some [5, 6], x_range := [0, 1], limits := some [0, 9],
    samples_per := 1, data_idx := 0, changed := true,
    stream_notify_available := true, refresh_requested := true,
    hasUpdateFn := true }

/-- Concrete query environment over integer values; `data_get` and `raw_get`
encode their two arguments so that distinct argument pairs give distinct
results. -/
def envQ : SamplesEnv Int Int Int :=
  { timeToSampleId := fun x => Except.ok ((x.getD 0) * 10),
    intOf := fun x => match x with
      | none => Except.error "TypeError: int of None"
      | some v => Except.ok v,
    dataGetKw := fun a b => (a.getD 0) * 100 + b.getD 0,
    rawGetKw := fun a b => (a.getD 0) * 1000 + b.getD 0 }

/-- Concrete valid (not invalidated) state used by the C1 witness: like
`sW0` but with `changed = False`. -/
def sW1 : VState := { sW0 with changed := false }

/-- Buffer environment for the C1 witness: two new samples, no pan lag. -/
def envW3 : BufEnv := { sample_id_end := 2, lag_int := 0, dataGet := gW }

/-- C8: processing a `stream_notify(buffer)` command only records the new
buffer reference and sets the data-availability flag; the window's data
contents, data index, x-range, samples-per factor and the actor state are
unchanged, and no update-callback invocation happens. -/
theorem C8_stream_notify_frame (buf : Option Nat) (s : VState) :
    (cmdStreamNotify buf s).2 = [] ∧
    (cmdStreamNotify buf s).1.stream_buffer = buf ∧
    (cmdStreamNotify buf s).1.stream_notify_available = true ∧
    (cmdStreamNotify buf s).1.data = s.data ∧
    (cmdStreamNotify buf s).1.data_idx = s.data_idx ∧
    (cmdStreamNotify buf s).1.x_range = s.x_range ∧
    (cmdStreamNotify buf s).1.samples_per = s.samples_per ∧
    (cmdStreamNotify buf s).1.state = s.state ∧
    (cmdStreamNotify buf s).1.changed = s.changed ∧
    (cmdStreamNotify buf s).1.refresh_requested = s.refresh_requested :=
  ⟨rfl, rfl, rfl, rfl, rfl, rfl, rfl, rfl, rfl, rfl⟩

/-- C10: the public `start(stream_buffer)` ignores its argument: any two
buffer values give identical results, the live-buffer reference is
unchanged, and the effect is exactly clear-window, mark changed and
refresh-pending, reset the data index and enter `streaming`. -/
theorem C10_start_ignores_buffer (b1 b2 : Option Nat) (s : VState) :
    start b1 s = start b2 s ∧
    (start b1 s).stream_buffer = s.stream_buffer ∧
    (start b1 s).state = "streaming" ∧
    (start b1 s).changed = true ∧
    (start b1 s).refresh_requested = true ∧
    (start b1 s).data_idx = 0 ∧
    (start b1 s).data
      = s.data.map (fun d => List.replicate d.length (none : Row)) ∧
    (start b1 s).samples_per = s.samples_per ∧
    (start b1 s).x_range = s.x_range ∧
    (start b1 s).x = s.x ∧
    (start b1 s).limits = s.limits ∧
    (start b1 s).stream_notify_available = s.stream_notify_available ∧
    (start b1 s).hasUpdateFn = s.hasUpdateFn :=
  ⟨rfl, rfl, rfl, rfl, rfl, rfl, rfl, rfl, rfl, rfl, rfl, rfl, rfl⟩

/-- C4: a blocking call whose response does not arrive within the timeout
(default 10 seconds) fails by raising `IOError` instead of hanging, and
before failing the worker is force-closed (a `close` command is posted), its
thread rejoined and the thread handle released. -/
theorem C4_timeout_force_close (α : Type) :
    postBlock true (RespEvent.timeout : RespEvent α) =
      { threadAfter := false, closePosted := true, joined := true,
        result := Except.error "IOError: queue.Empty" } ∧
    pbTimeout none = 10 :=
  ⟨rfl, rfl⟩

/-- C2 (amended): an exception raised inside a command's processing is caught
by the worker's bare `except` (it is logged and the loop continues), but the
response delivered for the command is the default `None`, not an error
object; a blocking caller receives that `None` as a successful return, and
only failures of the response-queue get itself are wrapped in `IOError`. -/
theorem C2_exception_contained (α : Type) (e : String) :
    cmdProcessResult (Except.error e : Except String (PyVal α))
      = PyVal.pynone ∧
    postBlock true
        (RespEvent.got (cmdProcessResult
          (Except.error e : Except String (PyVal α)))) =
      { threadAfter := true, closePosted := false, joined := false,
        result := Except.ok PyVal.pynone } :=
  ⟨rfl, rfl⟩

/-- C2 counterexample: for a command whose processing raises
`ValueError: boom`, the blocking caller receives the successful value `None`
— not the uniform `IOError` wrapping the cause that the claim asserts. -/
theorem C2_counterexample :
    (postBlock true (RespEvent.got (cmdProcessResult
        (Except.error "ValueError: boom" : Except String (PyVal Int))))).result
      = Except.ok PyVal.pynone ∧
    (Except.ok PyVal.pynone : Except String (PyVal Int)) ≠
      Except.error "IOError: ValueError: boom" :=
  ⟨rfl, by decide⟩

/-- C9: `samples_get(start, stop, "seconds")` and
`samples_get(start, stop, "samples")` return identical data whenever both
are defined: the converted sample indices are discarded and the caller's
original `start`/`stop` go unchanged to the buffer's `data_get` and
`raw_get`, so a valid units value never affects the returned samples. -/
theorem C9_units_no_data_flow (V D R : Type) (env : SamplesEnv V D R)
    (a b : Int) (start stop : Option V) (p q : D × R)
    (h1 : samplesGet env a b start stop (some "seconds") = Except.ok p)
    (h2 : samplesGet env a b start stop (some "samples") = Except.ok q) :
    p = q ∧ p = (env.dataGetKw start stop, env.rawGetKw start stop) := by
  have e1 : p = (env.dataGetKw start stop, env.rawGetKw start stop) := by
    unfold samplesGet at h1
    cases hc : convertTimeRangeToSamples env a b start stop
        (some "seconds") with
    | error msg => rw [hc] at h1; exact absurd h1 (by simp)
    | ok v =>
      rw [hc] at h1
      injection h1 with h
      exact h.symm
  have e2 : q = (env.dataGetKw start stop, env.rawGetKw start stop) := by
    unfold samplesGet at h2
    cases hc : convertTimeRangeToSamples env a b start stop
        (some "samples") with
    | error msg => rw [hc] at h2; exact absurd h2 (by simp)
    | ok v =>
      rw [hc] at h2
      injection h2 with h
      exact h.symm
  exact ⟨e1.trans e2.symm, e1⟩

/-- C9 witness: a concrete environment and range on which both unit variants
are defined and agree, returning the pass-through `data_get`/`raw_get`
results. -/
theorem C9_units_no_data_flow_witness :
    ((304 : Int), (3004 : Int)) = ((304 : Int), (3004 : Int)) ∧
    ((304 : Int), (3004 : Int))
      = (envQ.dataGetKw (some 3) (some 4), envQ.rawGetKw (some 3) (some 4)) :=
  C9_units_no_data_flow Int Int Int envQ 0 0 (some 3) (some 4) (304, 3004)
    (304, 3004) (by decide) (by decide)

/-- C3 (amended): a query (`samples_get` or `statistics_get`) with a units
value other than `"seconds"`/`"samples"` raises `ValueError` immediately
inside the worker — it is not silently defaulted and no result is computed —
but the worker's catch-all swallows the exception, so a blocking caller
receives `None` rather than the validation error. -/
theorem C3_invalid_units_rejected (V D R S : Type) (env : SamplesEnv V D R)
    (statsApi : Int → Int → S) (a b : Int) (start stop : Option V)
    (u : String) (h1 : u ≠ "seconds") (h2 : u ≠ "samples") :
    samplesGet env a b start stop (some u) =
      Except.error "ValueError: unsupported units" ∧
    statisticsGet env statsApi a b start stop (some u) =
      Except.error "ValueError: unsupported units" ∧
    (postBlock true (RespEvent.got (cmdProcessResult
        (Except.map (fun p => PyVal.val p)
          (samplesGet env a b start stop (some u)))))).result
      = Except.ok PyVal.pynone := by
  have hcv : ∀ (x : Option V), convertTimeToSamples env x (some u) =
      Except.error "ValueError: unsupported units" := by
    intro x
    simp [convertTimeToSamples, h1, h2]
  have hcr : convertTimeRangeToSamples env a b start stop (some u) =
      Except.error "ValueError: unsupported units" := by
    unfold convertTimeRangeToSamples
    rw [if_neg (by simp [h1]), hcv start]
  have hsg : samplesGet env a b start stop (some u) =
      Except.error "ValueError: unsupported units" := by
    unfold samplesGet
    rw [hcr]
  refine ⟨hsg, ?_, ?_⟩
  · unfold statisticsGet
    rw [hcr]
  · rw [hsg]
    rfl

/-- C3 witness: concrete invalid units value `"bogus"` on the concrete query
environment. -/
theorem C3_invalid_units_rejected_witness :
    samplesGet envQ 0 0 none none (some "bogus") =
      Except.error "ValueError: unsupported units" ∧
    statisticsGet envQ (fun a b => a + b) 0 0 none none (some "bogus") =
      Except.error "ValueError: unsupported units" ∧
    (postBlock true (RespEvent.got (cmdProcessResult
        (Except.map (fun p => PyVal.val p)
          (samplesGet envQ 0 0 none none (some "bogus")))))).result
      = Except.ok PyVal.pynone :=
  C3_invalid_units_rejected Int Int Int Int envQ (fun a b => a + b) 0 0
    none none "bogus" (by decide) (by decide)

/-- C3 counterexample: for `samples_get` with units `"bogus"` the blocking
caller receives the successful value `None`; the validation error is not
surfaced to the caller, contrary to the claim. -/
theorem C3_counterexample :
    (postBlock true (RespEvent.got (cmdProcessResult
        (Except.map (fun p => PyVal.val p)
          (samplesGet envQ 0 0 none none (some "bogus")))))).result
      = Except.ok PyVal.pynone ∧
    (postBlock true (RespEvent.got (cmdProcessResult
        (Except.map (fun p => PyVal.val p)
          (samplesGet envQ 0 0 none none (some "bogus")))))).result
      ≠ Except.error "ValueError: unsupported units" := by
  exact ⟨rfl, by decide⟩

lemma updateFromBuffer_state (env : BufEnv) (s : VState) :
    (updateFromBuffer env s).state = s.state := by
  unfold updateFromBuffer
  cases s.stream_buffer with
  | none => rfl
  | some n =>
    cases s.data with
    | none => rfl
    | some d =>
      dsimp only
      split
      · rfl
      · rfl

lemma update_ok_spec (env : BufEnv) (s v : VState)
    (invs : List (Option Snapshot))
    (hfn : s.hasUpdateFn = true) (h : update env s = Except.ok (v, invs)) :
    v.refresh_requested = false ∧ v.stream_notify_available = false ∧
    ∃ p, invs = [p] ∧
      (p = none ↔ (updateFromBuffer env s).data = none) ∧
      ∀ snap, p = some snap →
        snap.source_type =
          (if (updateFromBuffer env s).state = "idle" then "buffer"
           else "realtime") := by
  unfold update at h
  rw [hfn] at h
  simp only [Bool.true_eq_false, if_false] at h
  cases hd : (updateFromBuffer env s).data with
  | none =>
    rw [hd] at h
    simp only [Except.ok.injEq, Prod.mk.injEq] at h
    obtain ⟨hv, hi⟩ := h
    refine ⟨by rw [← hv], by rw [← hv], none, hi.symm, by simp [hd], ?_⟩
    intro snap hsnap
    exact absurd hsnap (by simp)
  | some rows =>
    rw [hd] at h
    cases hx : (updateFromBuffer env s).x with
    | none => rw [hx] at h; simp at h
    | some xs =>
      rw [hx] at h
      cases xs with
      | nil => simp [dataArrayToUpdate] at h
      | cons x0 xrest =>
        simp only [dataArrayToUpdate] at h
        simp only [Except.ok.injEq, Prod.mk.injEq] at h
        obtain ⟨hv, hi⟩ := h
        refine ⟨by rw [← hv], by rw [← hv], ?_⟩
        by_cases hst : (updateFromBuffer env s).state = "idle"
        · rw [if_pos hst] at hi
          refine ⟨some _, hi.symm, by simp [hd], ?_⟩
          intro snap hsnap
          injection hsnap with h2
          rw [if_pos hst, ← h2]
        · rw [if_neg hst] at hi
          refine ⟨some _, hi.symm, by simp [hd], ?_⟩
          intro snap hsnap
          injection hsnap with h2
          rw [if_neg hst, ← h2]

/-- C5 (amended): on an idle tick of the worker loop the unsolicited update
pass runs only when, additionally, at least one command arrived since the
previous idle tick and the window is marked changed or new stream data was
notified; when it runs and an update callback is registered, the pending
refresh flag is reset, and otherwise the state (up to the command counter)
and the pending flag are left untouched. -/
theorem C5_idle_tick_conditions (env : BufEnv) (r : RunState) :
    (∀ v invs, r.cmd_count ≠ 0 → r.vs.refresh_requested = true →
      (r.vs.changed = true ∨ r.vs.stream_notify_available = true) →
      update env r.vs = Except.ok (v, invs) →
      runIdle env r = Except.ok (⟨v, 0⟩, invs) ∧
        (r.vs.hasUpdateFn = true → v.refresh_requested = false)) ∧
    ((r.cmd_count = 0 ∨ r.vs.refresh_requested = false ∨
        (r.vs.changed = false ∧ r.vs.stream_notify_available = false)) →
      runIdle env r = Except.ok (⟨r.vs, 0⟩, [])) := by
  constructor
  · intro v invs h0 h1 h2 hup
    constructor
    · unfold runIdle
      rw [if_pos ⟨h0, h1, h2⟩, hup]
    · intro hfn
      exact (update_ok_spec env r.vs v invs hfn hup).1
  · intro hor
    have hneg : ¬(r.cmd_count ≠ 0 ∧ r.vs.refresh_requested = true ∧
        (r.vs.changed = true ∨ r.vs.stream_notify_available = true)) := by
      rintro ⟨a, b, c⟩
      rcases hor with h | h | ⟨hc, hn⟩
      · exact a h
      · rw [h] at b; exact absurd b (by simp)
      · rcases c with c | c
        · rw [hc] at c; exact absurd c (by simp)
        · rw [hn] at c; exact absurd c (by simp)
    unfold runIdle
    rw [if_neg hneg]

/-- C5 witness: with one command since the last idle tick, a pending refresh,
a changed window and a registered callback, the idle tick performs the update
pass and resets the pending flag. -/
theorem C5_idle_tick_conditions_witness :
    runIdle envId { vs := vPend, cmd_count := 1 } =
      Except.ok (⟨{ vPend with
                      stream_notify_available := false,
                      refresh_requested := false }, 0⟩, [none]) ∧
    ({ vPend with
         stream_notify_available := false,
         refresh_requested := false } : VState).refresh_requested = false := by
  have h := (C5_idle_tick_conditions envId { vs := vPend, cmd_count := 1 }).1
    { vPend with stream_notify_available := false, refresh_requested := false }
    [none] (by decide) (by rfl) (Or.inl (by rfl)) (by decide)
  exact ⟨h.1, h.2 (by rfl)⟩

/-- C5 counterexample: the queue stays empty past the idle timeout and a
refresh is pending (with a registered callback and a changed window), yet
because no command arrived since the previous idle tick (`cmd_count = 0`)
no update pass runs and the pending flag is not reset — refuting the claim
that there is no further condition on how many commands arrived. -/
theorem C5_counterexample :
    runIdle envId { vs := vPend, cmd_count := 0 } =
      Except.ok ({ vs := vPend, cmd_count := 0 }, []) ∧
    vPend.refresh_requested = true ∧ vPend.hasUpdateFn = true := by
  decide

/-- C6: after every successful recompute (update pass with a registered
callback), the callback is invoked exactly once, with `none` exactly when no
window data exists, and a non-null snapshot's `source_type` is `"buffer"`
when the actor state is `idle` and `"realtime"` when it is `streaming`. -/
theorem C6_update_invokes_callback_once (env : BufEnv) (s v : VState)
    (invs : List (Option Snapshot))
    (hfn : s.hasUpdateFn = true)
    (hok : update env s = Except.ok (v, invs)) :
    ∃ p, invs = [p] ∧
      (p = none ↔ (updateFromBuffer env s).data = none) ∧
      (∀ snap, p = some snap →
        (s.state = "idle" → snap.source_type = "buffer") ∧
        (s.state = "streaming" → snap.source_type = "realtime")) := by
  obtain ⟨-, -, p, hp, hiff, hsrc⟩ := update_ok_spec env s v invs hfn hok
  refine ⟨p, hp, hiff, ?_⟩
  intro snap hs
  have h := hsrc snap hs
  rw [updateFromBuffer_state] at h
  constructor
  · intro hid
    rw [hid] at h
    simpa using h
  · intro hstr
    rw [hstr] at h
    simpa using h

/-- C6 witness: a streaming state with window data; the single invocation
carries a snapshot tagged `realtime`. -/
theorem C6_update_invokes_callback_once_witness :
    ∃ p, [some ({ limits := some [0, 9], xFirst := 5, xLast := 6, rows := dW,
                  source_type := "realtime" } : Snapshot)] = [p] ∧
      (p = none ↔ (updateFromBuffer envId vStream).data = none) ∧
      (∀ snap, p = some snap →
        (vStream.state = "idle" → snap.source_type = "buffer") ∧
        (vStream.state = "streaming" → snap.source_type = "realtime")) :=
  C6_update_invokes_callback_once envId vStream
    { vStream with
        stream_notify_available := false, refresh_requested := false }
    [some { limits := some [0, 9], xFirst := 5, xLast := 6, rows := dW,
            source_type := "realtime" }]
    (by rfl) (by decide)

lemma viewLen_some {s : VState} {d : List Row} (h : s.data = some d) :
    viewLen s = d.length := by
  unfold viewLen
  rw [h]

lemma viewLen_none {s : VState} (h : s.data = none) : viewLen s = 0 := by
  unfold viewLen
  rw [h]

lemma viewLen_eq_of_data_eq {s t : VState} (h : s.data = t.data) :
    viewLen s = viewLen t := by
  unfold viewLen
  rw [h]

lemma viewLen_clear (t : VState) : viewLen (clear t) = viewLen t := by
  cases hd : t.data with
  | none =>
    have h1 : (clear t).data = none := by simp [clear, hd]
    rw [viewLen_none h1, viewLen_none hd]
  | some d =>
    have h1 : (clear t).data = some (List.replicate d.length (none : Row)) := by
      simp [clear, hd]
    rw [viewLen_some h1, viewLen_some hd]
    simp

lemma length_npRoll (l : List α) (sh : Int) : (npRoll l sh).length = l.length := by
  unfold npRoll
  split
  · rfl
  · exact List.length_rotate l _

lemma length_pySliceFrom_le (l : List α) (i : Int) :
    (pySliceFrom l i).length ≤ l.length := by
  unfold pySliceFrom
  simp

lemma viewLen_updateFromBuffer (env : BufEnv) (s : VState)
    (hg : ∀ a b c l, (env.dataGet a b c l).length = l.length) :
    viewLen (updateFromBuffer env s) = viewLen s := by
  unfold updateFromBuffer
  cases hb : s.stream_buffer with
  | none => rfl
  | some n =>
    cases hd : s.data with
    | none => rfl
    | some d =>
      dsimp only
      split
      · rfl
      · unfold viewLen
        dsimp only
        simp only [hd]
        norm_cast
        split
        · split
          · rw [hg, List.length_replicate]
          · rw [List.length_replicate]
        · split
          · rw [List.length_append, List.length_take, hg, length_npRoll]
            have hle := length_pySliceFrom_le (npRoll d (-(view env s).2.2))
              (-(view env s).2.2)
            rw [length_npRoll] at hle
            omega
          · rw [List.length_replicate]

lemma data_onXChangeResize (conform anchor : List Int → List Int × Int × List Int)
    (px : Option Nat) (s : VState) :
    (onXChangeResize conform anchor px s).data =
      ((match px with
        | some L => if (L : Int) ≠ viewLen s then
                      some (List.replicate L (none : Row))
                    else s.data
        | none => s.data : Option (List Row))).map
        (fun d => List.replicate d.length (none : Row)) := by
  unfold onXChangeResize
  cases px with
  | none =>
    dsimp only
    split <;> split <;> rfl
  | some L =>
    dsimp only
    by_cases hL : (L : Int) ≠ viewLen s
    · simp only [if_pos hL]
      split <;> split <;> rfl
    · simp only [if_neg hL]
      split <;> split <;> rfl

lemma viewLen_onXChangeResize
    (conform anchor : List Int → List Int × Int × List Int)
    (px : Option Nat) (s : VState) :
    viewLen (onXChangeResize conform anchor px s) =
      (match px with
       | some L => (L : Int)
       | none => viewLen s) := by
  have hdata := data_onXChangeResize conform anchor px s
  cases px with
  | none =>
    dsimp only at hdata ⊢
    cases hd : s.data with
    | none =>
      rw [hd] at hdata
      simp only [Option.map_none'] at hdata
      rw [viewLen_none hdata, viewLen_none hd]
    | some d =>
      rw [hd] at hdata
      simp only [Option.map_some'] at hdata
      rw [viewLen_some hdata, viewLen_some hd]
      simp
  | some L =>
    dsimp only at hdata ⊢
    by_cases hL : (L : Int) ≠ viewLen s
    · rw [if_pos hL] at hdata
      simp only [Option.map_some'] at hdata
      rw [viewLen_some hdata]
      simp
    · rw [if_neg hL] at hdata
      push_neg at hL
      cases hd : s.data with
      | none =>
        rw [hd] at hdata
        simp only [Option.map_none'] at hdata
        rw [viewLen_none hdata, hL, viewLen_none hd]
      | some d =>
        rw [hd] at hdata
        simp only [Option.map_some'] at hdata
        rw [viewLen_some hdata, hL, viewLen_some hd]
        simp

/-- C7: after a resize command requesting pixel length `L` the window's row
count equals `L`, and the row count is preserved by clear, start, stop, and
every update pass (roll or full recompute, given that the buffer's in-place
`data_get` preserves region length), as well as by a subsequent resize
request with the same length or with `pixels=None`. -/
theorem C7_resize_row_count
    (conform anchor : List Int → List Int × Int × List Int)
    (L : Nat) (px : Option Nat) (env : BufEnv) (s t : VState)
    (hg : ∀ a b c l, (env.dataGet a b c l).length = l.length) :
    viewLen (onXChangeResize conform anchor (some L) s) = L ∧
    viewLen (clear t) = viewLen t ∧
    viewLen (startCmd t) = viewLen t ∧
    viewLen (stopCmd t) = viewLen t ∧
    viewLen (updateFromBuffer env t) = viewLen t ∧
    (px = some L ∨ px = none →
      viewLen (onXChangeResize conform anchor px
        (onXChangeResize conform anchor (some L) s)) = L) := by
  refine ⟨viewLen_onXChangeResize conform anchor (some L) s,
    viewLen_clear t,
    (viewLen_eq_of_data_eq rfl).trans (viewLen_clear t),
    viewLen_eq_of_data_eq rfl,
    viewLen_updateFromBuffer env t hg, ?_⟩
  intro hpx
  rcases hpx with h | h
  · rw [h, viewLen_onXChangeResize]
  · rw [h, viewLen_onXChangeResize]
    exact viewLen_onXChangeResize conform anchor (some L) s

/-- C7 witness: concrete resize to 3 rows on the concrete state, and shape
preservation of a clear. -/
theorem C7_resize_row_count_witness :
    viewLen (onXChangeResize (fun xr => (xr, 1, [0])) (fun xr => (xr, 1, [0]))
      (some 3) sW0) = 3 ∧
    viewLen (clear sW0) = viewLen sW0 :=
  ⟨(C7_resize_row_count (fun xr => (xr, 1, [0])) (fun xr => (xr, 1, [0])) 3
      none envId sW0 sW0 (fun _ _ _ _ => rfl)).1,
   (C7_resize_row_count (fun xr => (xr, 1, [0])) (fun xr => (xr, 1, [0])) 3
      none envId sW0 sW0 (fun _ _ _ _ => rfl)).2.1⟩

lemma npRoll_pos (d : List Row) (delta : Int) (h1 : 0 < delta)
    (h2 : delta < (d.length : Int)) :
    npRoll d (-delta) = d.drop delta.toNat ++ d.take delta.toNat := by
  have hn : d.length ≠ 0 := by omega
  unfold npRoll
  rw [if_neg hn]
  have he : -(-delta) % ((d.length : Nat) : Int) = delta := by
    rw [neg_neg]
    exact Int.emod_eq_of_lt (le_of_lt h1) h2
  rw [he]
  exact List.rotate_eq_drop_append_take (by omega)

lemma pySliceFrom_neg (l : List Row) (delta : Int) (h1 : 0 < delta)
    (h2 : delta ≤ (l.length : Int)) :
    pySliceFrom l (-delta) = l.drop (l.length - delta.toNat) := by
  unfold pySliceFrom
  dsimp only
  rw [if_pos (by omega : (-delta) < 0)]
  congr 1
  rw [max_eq_right (by omega : (0 : Int) ≤ (l.length : Int) + -delta)]
  omega

lemma shift_fill_eq (g : Int → Int → Int → List Row → List Row)
    (d : List Row) (a b c delta : Int) (h1 : 0 < delta)
    (h2 : delta < (d.length : Int)) :
    (npRoll d (-delta)).take ((npRoll d (-delta)).length -
        (pySliceFrom (npRoll d (-delta)) (-delta)).length) ++
      g a b c (pySliceFrom (npRoll d (-delta)) (-delta))
    = d.drop delta.toNat ++ g a b c (d.take delta.toNat) := by
  have hr : npRoll d (-delta) = d.drop delta.toNat ++ d.take delta.toNat :=
    npRoll_pos d delta h1 h2
  have hlen : (npRoll d (-delta)).length = d.length := length_npRoll d (-delta)
  have hregion : pySliceFrom (npRoll d (-delta)) (-delta)
      = d.take delta.toNat := by
    rw [pySliceFrom_neg (npRoll d (-delta)) delta h1 (by rw [hlen]; omega),
      hlen, hr]
    rw [(by simp : d.length - delta.toNat = (d.drop delta.toNat).length)]
    exact List.drop_left (d.drop delta.toNat) (d.take delta.toNat)
  rw [hregion, hr]
  congr 1
  have hidx : (d.drop delta.toNat ++ d.take delta.toNat).length -
      (d.take delta.toNat).length = (d.drop delta.toNat).length := by
    simp
  rw [hidx]
  exact List.take_left' rfl

/-- C1 (amended): for an update pass over an allocated window attached to a
live buffer: (i) when not invalidated and `delta = 0` the pass is a no-op;
(ii) when invalidated or `delta ≥ length`, and data exists at the view
position (`data_idx_view_end > 0`), every row is rewritten from the buffer
over a NaN-filled window; (iii) in the same situation with
`data_idx_view_end ≤ 0` the window is NaN-filled without touching the
buffer; (iv) when not invalidated, `0 < delta < length` and
`data_idx_view_end > 0`, the rows are shifted left by `delta` (discarding
the oldest `delta`) and exactly the `delta` tail rows are filled from the
buffer; (v) in the same situation with `data_idx_view_end ≤ 0` the window
is NaN-filled instead. -/
theorem C1_update_window_policy (env : BufEnv) (s : VState) (bId : Nat)
    (d : List Row) (hb : s.stream_buffer = some bId) (hd : s.data = some d) :
    ((s.changed = false ∧ (view env s).2.2 = 0) → updateFromBuffer env s = s) ∧
    ((s.changed = true ∨ (view env s).2.2 ≥ (d.length : Int)) →
      ¬(s.changed = false ∧ (view env s).2.2 = 0) →
      0 < (view env s).1 →
      updateFromBuffer env s =
        { s with
            data := some (env.dataGet
              (((view env s).1 - d.length) * s.samples_per)
              (view env s).2.1 s.samples_per
              (List.replicate d.length (none : Row))),
            data_idx := (view env s).1, changed := false }) ∧
    ((s.changed = true ∨ (view env s).2.2 ≥ (d.length : Int)) →
      ¬(s.changed = false ∧ (view env s).2.2 = 0) →
      (view env s).1 ≤ 0 →
      updateFromBuffer env s =
        { s with
            data := some (List.replicate d.length (none : Row)),
            data_idx := (view env s).1, changed := false }) ∧
    (s.changed = false → 0 < (view env s).2.2 →
      (view env s).2.2 < (d.length : Int) → 0 < (view env s).1 →
      updateFromBuffer env s =
        { s with
            data := some (d.drop (view env s).2.2.toNat ++
              env.dataGet (s.data_idx * s.samples_per) (view env s).2.1
                s.samples_per (d.take (view env s).2.2.toNat)),
            data_idx := (view env s).1, changed := false }) ∧
    (s.changed = false → (view env s).2.2 ≠ 0 →
      (view env s).2.2 < (d.length : Int) → (view env s).1 ≤ 0 →
      updateFromBuffer env s =
        { s with
            data := some (List.replicate d.length (none : Row)),
            data_idx := (view env s).1, changed := false }) := by
  have hv : viewLen s = (d.length : Int) := viewLen_some hd
  refine ⟨?_, ?_, ?_, ?_, ?_⟩
  · rintro ⟨hc, h0⟩
    simp only [updateFromBuffer, hb, hd, hv]
    rw [if_pos ⟨hc, h0⟩]
  · intro hful hne hve
    simp only [updateFromBuffer, hb, hd, hv]
    rw [if_neg hne, if_pos hful, if_pos hve]
  · intro hful hne hve
    simp only [updateFromBuffer, hb, hd, hv]
    rw [if_neg hne, if_pos hful, if_neg (by omega : ¬((view env s).1 > 0))]
  · intro hc hpos hlt hve
    have hne : ¬(s.changed = false ∧ (view env s).2.2 = 0) := by
      rintro ⟨-, h0⟩
      omega
    have hnful : ¬(s.changed = true ∨ (view env s).2.2 ≥ (d.length : Int)) := by
      rintro (h | h)
      · rw [hc] at h
        exact absurd h (by simp)
      · omega
    simp only [updateFromBuffer, hb, hd, hv]
    rw [if_neg hne, if_neg hnful, if_pos hve,
      shift_fill_eq env.dataGet d (s.data_idx * s.samples_per)
        ((view env s).2.1) s.samples_per ((view env s).2.2) hpos hlt]
  · intro hc hne0 hlt hve
    have hne : ¬(s.changed = false ∧ (view env s).2.2 = 0) := by
      rintro ⟨-, h0⟩
      exact hne0 h0
    have hnful : ¬(s.changed = true ∨ (view env s).2.2 ≥ (d.length : Int)) := by
      rintro (h | h)
      · rw [hc] at h
        exact absurd h (by simp)
      · omega
    simp only [updateFromBuffer, hb, hd, hv]
    rw [if_neg hne, if_neg hnful, if_neg (by omega : ¬((view env s).1 > 0))]

/-- C1 witness: a valid incremental pass: two new rows on a four-row window
shift the rows left by two and fill the two tail rows from the buffer. -/
theorem C1_update_window_policy_witness :
    updateFromBuffer envW3 sW1 =
      { sW1 with
          data := some [some 3, some 4, some 9, some 9],
          data_idx := 2, changed := false } := by
  have h := (C1_update_window_policy envW3 sW1 0 dW rfl rfl).2.2.2.1
    rfl (by decide) (by decide) (by decide)
  rw [h]
  decide

/-- C1 counterexample: a reachable pass (after a full pass on a view panned
behind the live edge) with `changed = False` and `delta = 3` on a four-row
window, where `data_idx_view_end = -2 ≤ 0`: the code NaN-fills the whole
window, while the claim's shift-and-fill formula predicts the shifted rows
with three buffer-filled tail rows. -/
theorem C1_counterexample :
    (updateFromBuffer envW1 sW0).data_idx = -5 ∧
    (updateFromBuffer envW1 sW0).changed = false ∧
    (view envW2 (updateFromBuffer envW1 sW0)).2.2 = 3 ∧
    (updateFromBuffer envW2 (updateFromBuffer envW1 sW0)).data =
      some [none, none, none, none] ∧
    (updateFromBuffer envW2 (updateFromBuffer envW1 sW0)).data ≠
      some (List.drop 3 [none, none, none, none] ++
        gW (-5) (-2) 1 (List.take 3 [none, none, none, none])) := by
  decide

/-- C8 witness: concrete stream_notify command on the concrete state. -/
theorem C8_stream_notify_frame_witness :
    (cmdStreamNotify (some 7) sW0).2 = [] ∧
    (cmdStreamNotify (some 7) sW0).1.stream_buffer = some 7 :=
  ⟨(C8_stream_notify_frame (some 7) sW0).1,
   (C8_stream_notify_frame (some 7) sW0).2.1⟩

/-- C10 witness: two distinct buffer arguments give the same result on the
concrete state. -/
theorem C10_start_ignores_buffer_witness :
    start (some 1) sW0 = start (some 2) sW0 ∧
    (start (some 1) sW0).stream_buffer = sW0.stream_buffer :=
  ⟨(C10_start_ignores_buffer (some 1) (some 2) sW0).1,
   (C10_start_ignores_buffer (some 1) (some 2) sW0).2.1⟩

/-- C4 witness: the timeout outcome at a concrete value type. -/
theorem C4_timeout_force_close_witness :
    postBlock true (RespEvent.timeout : RespEvent Int) =
      { threadAfter := false, closePosted := true, joined := true,
        result := Except.error "IOError: queue.Empty" } :=
  (C4_timeout_force_close Int).1

/-- C2 witness: a concrete raising command is contained to `None`. -/
theorem C2_exception_contained_witness :
    cmdProcessResult (Except.error "boom" : Except String (PyVal Int))
      = PyVal.pynone :=
  (C2_exception_contained Int "boom").1

end JView
